import Mathlib

/-!
Shallow embedding of the deterministic simulation layer of the Kiro-Focus
repository, together with theorems settling the frozen claims about it.

Conventions of the embedding:
* JavaScript numbers are modelled as exact values: integer-valued quantities
  (credits, costs, millisecond timestamps, counters) as `Int`/`Nat`, and
  quantities that flow through non-integer arithmetic (seconds with division
  by 1000, grid coordinates, bonus rates such as 0.2) as `Rat`.  Decimal
  literals like `0.2` denote the exact rational.
* `Math.floor` is `Int.floor`, `Math.max(0, x)` is `max 0 x`, and
  `Math.round` is `fun q => ⌊q + 0.5⌋` (JavaScript rounds half toward +∞).
* JavaScript objects become structures; fields that a code path leaves
  `undefined` become `Option` fields defaulting to `none`.
* The host clock (`Date.now()`) becomes an explicit `now` argument.
* The host's local calendar (`new Date(ms).getFullYear/getMonth/getDate`)
  is modelled as a fixed-offset (UTC) Gregorian calendar via `civilFromDays`;
  `getMonth` is zero-based, exactly as in JavaScript.
-/

/- ===================== Timer Engine (src/kiro-focus/src/utils/timerLogic.js) ===================== -/

/-- Live countdown state, mirroring the object produced by `startTimer`.
`timeRemaining`/`totalDuration` are in seconds, `startTime`/`pausedAt`/
`totalPausedTime` in milliseconds. -/
structure TimerState where
  isActive : Bool
  isPaused : Bool
  timeRemaining : ℚ
  totalDuration : ℚ
  startTime : ℤ
  pauseCount : ℕ
  pausedAt : Option ℤ
  totalPausedTime : ℤ
  deriving Repr, DecidableEq

/-- `startTimer(duration)` with the implicit `Date.now()` made explicit. -/
def startTimer (now : ℤ) (duration : ℚ) : TimerState :=
  { isActive := true
    isPaused := false
    timeRemaining := duration
    totalDuration := duration
    startTime := now
    pauseCount := 0
    pausedAt := none
    totalPausedTime := 0 }

/-- `pauseTimer(state)`: no-op unless active and not paused; otherwise sets
`isPaused`, increments `pauseCount` and records `pausedAt = now`. -/
def pauseTimer (now : ℤ) (state : TimerState) : TimerState :=
  if !state.isActive || state.isPaused then state
  else
    { state with
      isPaused := true
      pauseCount := state.pauseCount + 1
      pausedAt := some now }

/-- `resumeTimer(state)`: no-op unless active and paused; otherwise adds the
pause duration to `totalPausedTime` and clears `pausedAt`. -/
def resumeTimer (now : ℤ) (state : TimerState) : TimerState :=
  if !state.isActive || !state.isPaused then state
  else
    let pauseDuration : ℤ := match state.pausedAt with
      | some t => now - t
      | none => 0
    { state with
      isPaused := false
      pausedAt := none
      totalPausedTime := state.totalPausedTime + pauseDuration }

/-- `tickTimer(state)`: one-second decrement with drift correction against the
wall clock; snaps to `max 0 ⌊expectedRemaining⌋` when the drift exceeds 2s. -/
def tickTimer (now : ℤ) (state : TimerState) : TimerState :=
  if !state.isActive || state.isPaused then state
  else
    let totalElapsed : ℤ := now - state.startTime
    let activeElapsed : ℤ := totalElapsed - state.totalPausedTime
    let actualElapsedSeconds : ℚ := (activeElapsed : ℚ) / 1000
    let expectedRemaining : ℚ := state.totalDuration - actualElapsedSeconds
    let newTimeRemaining : ℚ := state.timeRemaining - 1
    let drift : ℚ := |expectedRemaining - newTimeRemaining|
    if drift > 2 then
      { state with timeRemaining := max 0 ((⌊expectedRemaining⌋ : ℤ) : ℚ) }
    else
      { state with timeRemaining := max 0 newTimeRemaining }

/- ===================== Credit Engine (src/kiro-focus/src/utils/connectionRules.js, credit calculator section) ===================== -/

/-- `calculateBaseCredits(duration)`: 10 credits per full 900-second block. -/
def calculateBaseCredits (duration : ℤ) : ℤ :=
  if duration ≤ 0 then 0 else ⌊(duration : ℚ) / 900⌋ * 10

/-- `calculateCompletionBonus(baseCredits, pauseCount)`: 20% of base iff
the session was never paused. -/
def calculateCompletionBonus (baseCredits : ℤ) (pauseCount : ℕ) : ℤ :=
  if pauseCount = 0 then ⌊(baseCredits : ℚ) * 0.2⌋ else 0

/-- `calculateStreakBonus(baseCredits, streak)`: 5% per streak day, capped at
50%. -/
def calculateStreakBonus (baseCredits : ℤ) (streak : ℤ) : ℤ :=
  if streak ≤ 0 then 0
  else
    let bonusPercentage : ℚ := min ((streak : ℚ) * 0.05) 0.5
    ⌊(baseCredits : ℚ) * bonusPercentage⌋

/-- `calculateLongSessionBonus(baseCredits, duration)`: 10% of base for
sessions of at least 3600 seconds. -/
def calculateLongSessionBonus (baseCredits : ℤ) (duration : ℤ) : ℤ :=
  if duration ≥ 3600 then ⌊(baseCredits : ℚ) * 0.1⌋ else 0

/-- `calculatePartialCredits(elapsedTime)`: half of the base credits for the
elapsed time of an abandoned session. -/
def calculatePartialCredits (elapsedTime : ℤ) : ℤ :=
  if elapsedTime ≤ 0 then 0
  else ⌊(calculateBaseCredits elapsedTime : ℚ) * 0.5⌋

/-- One completed-or-abandoned focus attempt, as stored in session history.
`startTime`/`endTime` are millisecond timestamps, `duration` is in seconds. -/
structure Session where
  id : String
  startTime : ℕ
  endTime : ℕ
  duration : ℤ
  completed : Bool
  pauseCount : ℕ
  creditsEarned : ℤ
  deriving Repr, DecidableEq

/-- Credit breakdown returned by `calculateTotalCredits`.  The source's
`partial` field is spelled `partialCredits` here. -/
structure CreditBreakdown where
  base : ℤ
  completion : ℤ
  streak : ℤ
  longSession : ℤ
  partialCredits : ℤ
  total : ℤ
  deriving Repr, DecidableEq

/-- `calculateTotalCredits(session, streak)`: partial credits only for an
abandoned session; base plus the three bonuses for a completed one. -/
def calculateTotalCredits (session : Session) (streak : ℤ) : CreditBreakdown :=
  if !session.completed then
    let partialAmount := calculatePartialCredits session.duration
    { base := 0, completion := 0, streak := 0, longSession := 0
      partialCredits := partialAmount, total := partialAmount }
  else
    let base := calculateBaseCredits session.duration
    let completion := calculateCompletionBonus base session.pauseCount
    let streakBonus := calculateStreakBonus base streak
    let longSession := calculateLongSessionBonus base session.duration
    { base := base, completion := completion, streak := streakBonus
      longSession := longSession, partialCredits := 0
      total := base + completion + streakBonus + longSession }

/- ===================== Catalog & Purchase Validator (src/unnamed/part_000, src/kiro-focus/src/data/components.js) ===================== -/

/-- Catalog entry projected to the fields the shop logic consults
(id, display name, cost, prerequisite ids). -/
structure ShopComponent where
  id : String
  name : String
  cost : ℤ
  prerequisites : Option (List String)
  deriving Repr, DecidableEq

/-- The static `COMPONENTS_CATALOG`, projected to `ShopComponent` fields. -/
def COMPONENTS_CATALOG : List ShopComponent :=
  [ ⟨"route53", "Route 53", 30, none⟩
  , ⟨"cloudfront", "CloudFront CDN", 70, some ["s3"]⟩
  , ⟨"loadbalancer", "Application Load Balancer", 60, some ["ec2"]⟩
  , ⟨"ec2", "EC2 Instance", 50, none⟩
  , ⟨"ecs", "ECS Service", 100, some ["ec2"]⟩
  , ⟨"lambda", "Lambda Function", 40, none⟩
  , ⟨"s3", "S3 Bucket", 30, none⟩
  , ⟨"rds", "RDS Database", 80, some ["ec2"]⟩
  , ⟨"dynamodb", "DynamoDB Table", 60, none⟩
  , ⟨"elasticache", "ElastiCache Redis", 80, some ["ec2"]⟩
  , ⟨"sqs", "SQS Queue", 40, none⟩
  , ⟨"sns", "SNS Topic", 35, none⟩
  , ⟨"eventbridge", "EventBridge Bus", 50, none⟩
  , ⟨"cognito", "Cognito User Pool", 70, none⟩
  , ⟨"waf", "WAF Web ACL", 90, some ["loadbalancer"]⟩
  , ⟨"cloudwatch", "CloudWatch", 45, none⟩ ]

/-- `getComponentById(id)`: first catalog entry with the given id. -/
def getComponentById (id : String) : Option ShopComponent :=
  COMPONENTS_CATALOG.find? (fun c => c.id == id)

/-- Result object of `checkPrerequisites`; `missingNames` is only present on
the failing branch. -/
structure PrereqResult where
  met : Bool
  missing : List String
  missingNames : Option (List String)
  message : String
  deriving Repr, DecidableEq

/-- `checkPrerequisites(component, ownedComponents)`: met when the component
has no prerequisites or every prerequisite id is owned; otherwise reports the
missing ids and a message naming them. -/
def checkPrerequisites (component : ShopComponent) (ownedComponents : List String) :
    PrereqResult :=
  match component.prerequisites with
  | none => { met := true, missing := [], missingNames := none
              message := "No prerequisites required" }
  | some prereqs =>
    if prereqs.isEmpty then
      { met := true, missing := [], missingNames := none
        message := "No prerequisites required" }
    else
      let missing := prereqs.filter (fun prereqId => !ownedComponents.contains prereqId)
      if missing.isEmpty then
        { met := true, missing := [], missingNames := none
          message := "All prerequisites met" }
      else
        let missingNames := missing.map (fun id =>
          match getComponentById id with
          | some prereq => prereq.name
          | none => id)
        { met := false, missing := missing, missingNames := some missingNames
          message := "Requires: " ++ String.intercalate ", " missingNames }

/-- Result object of `canPurchase`; the optional fields are only present on
the code paths that set them. -/
structure PurchaseCheck where
  canPurchase : Bool
  reason : String
  message : String
  missingPrerequisites : Option (List String)
  shortage : Option ℤ
  deriving Repr, DecidableEq

/-- `canPurchase(component, credits, ownedComponents)`: rejects an
already-owned item (unless it is `ec2`), then unmet prerequisites, then
insufficient credits; otherwise available. -/
def canPurchase (component : ShopComponent) (credits : ℤ)
    (ownedComponents : List String) : PurchaseCheck :=
  if component.id != "ec2" && ownedComponents.contains component.id then
    { canPurchase := false, reason := "already_owned"
      message := "You already own this component"
      missingPrerequisites := none, shortage := none }
  else
    let prereqResult := checkPrerequisites component ownedComponents
    if !prereqResult.met then
      { canPurchase := false, reason := "prerequisites_not_met"
        message := prereqResult.message
        missingPrerequisites := some prereqResult.missing, shortage := none }
    else if credits < component.cost then
      { canPurchase := false, reason := "insufficient_credits"
        message := "Need " ++ toString (component.cost - credits) ++ " more credits"
        missingPrerequisites := none, shortage := some (component.cost - credits) }
    else
      { canPurchase := true, reason := "available"
        message := "Ready to purchase"
        missingPrerequisites := none, shortage := none }

/-- Result object of `processPurchase`. -/
structure PurchaseOutcome where
  success : Bool
  newCredits : ℤ
  newOwnedComponents : List String
  error : Option String
  creditsSpent : Option ℤ
  componentPurchased : Option String
  deriving Repr, DecidableEq

/-- `processPurchase(component, credits, ownedComponents)`: re-validates via
`canPurchase`; on failure returns the inputs unchanged with the failure
message, on success deducts the cost and appends the component id. -/
def processPurchase (component : ShopComponent) (credits : ℤ)
    (ownedComponents : List String) : PurchaseOutcome :=
  let purchaseCheck := canPurchase component credits ownedComponents
  if !purchaseCheck.canPurchase then
    { success := false, newCredits := credits
      newOwnedComponents := ownedComponents
      error := some purchaseCheck.message
      creditsSpent := none, componentPurchased := none }
  else
    { success := true, newCredits := credits - component.cost
      newOwnedComponents := ownedComponents ++ [component.id]
      error := none
      creditsSpent := some component.cost
      componentPurchased := some component.id }

/- ===================== Connection Matrix (src/kiro-focus/src/utils/connectionRules.js) ===================== -/

/-- The closed set of component categories. -/
inductive ComponentCategory where
  | edge
  | load_balancer
  | compute
  | serverless
  | storage
  | database
  | cache
  | async
  | auth
  | security
  | observability
  deriving Repr, DecidableEq, BEq

/-- `CONNECTION_RULES`: permitted destination categories per source category. -/
def CONNECTION_RULES : ComponentCategory → List ComponentCategory
  | .edge => [.edge, .load_balancer, .compute, .serverless, .storage, .observability]
  | .load_balancer => [.compute, .serverless, .observability]
  | .compute => [.database, .cache, .storage, .async, .observability]
  | .serverless => [.database, .cache, .storage, .async, .observability]
  | .storage => [.async, .observability]
  | .database => [.async, .observability]
  | .cache => [.observability]
  | .async => [.serverless, .compute, .observability]
  | .auth => [.edge, .load_balancer, .serverless, .observability]
  | .security => [.edge, .load_balancer, .observability]
  | .observability => []

/-- A component as seen by `isValidConnection`: only its category is
consulted.  In the typed embedding the null/missing-category guards of the
source are vacuous. -/
structure CategorizedComponent where
  category : ComponentCategory
  deriving Repr, DecidableEq

/-- `isValidConnection(fromComponent, toComponent)`: the source category's
rule list must contain the destination category. -/
def isValidConnection (fromComponent toComponent : CategorizedComponent) : Bool :=
  (CONNECTION_RULES fromComponent.category).contains toComponent.category

/- ===================== Placement Engine (src/kiro-focus/src/utils/canvasLogic.js) ===================== -/

def CANVAS_WIDTH : ℚ := 800

def CANVAS_HEIGHT : ℚ := 600

/-- Pixels per grid cell. -/
def GRID_SIZE : ℚ := 40

/-- `CANVAS_WIDTH / GRID_SIZE = 20` columns. -/
def GRID_COLS : ℕ := 20

/-- `CANVAS_HEIGHT / GRID_SIZE = 15` rows. -/
def GRID_ROWS : ℕ := 15

/-- A pixel position on the canvas. -/
structure Position where
  x : ℚ
  y : ℚ
  deriving Repr, DecidableEq

/-- `Math.round` of JavaScript: round half toward positive infinity. -/
def jsRound (q : ℚ) : ℤ := ⌊q + 0.5⌋

/-- `snapToGrid(position)`: round each coordinate to the nearest multiple of
`GRID_SIZE`. -/
def snapToGrid (position : Position) : Position :=
  { x := ((jsRound (position.x / GRID_SIZE) : ℤ) : ℚ) * GRID_SIZE
    y := ((jsRound (position.y / GRID_SIZE) : ℤ) : ℚ) * GRID_SIZE }

/-- An owned item instantiated on the canvas. -/
structure PlacedComponent where
  id : String
  type : String
  position : Position
  tier : ℕ
  deriving Repr, DecidableEq

/-- `isValidPlacement(position, placedComponents, excludeId)`: the 2×2-cell
(80×80 pixel) footprint must stay inside the canvas and must not overlap the
footprint of any existing component other than `excludeId`. -/
def isValidPlacement (position : Position) (placedComponents : List PlacedComponent)
    (excludeId : Option String) : Bool :=
  let componentSize : ℚ := GRID_SIZE * 2
  if position.x < 0 || position.x + componentSize > CANVAS_WIDTH then false
  else if position.y < 0 || position.y + componentSize > CANVAS_HEIGHT then false
  else
    placedComponents.all (fun component =>
      let skip : Bool := match excludeId with
        | some e => component.id == e
        | none => false
      let overlap : Bool :=
        !(decide (position.x + componentSize ≤ component.position.x) ||
          decide (position.x ≥ component.position.x + componentSize) ||
          decide (position.y + componentSize ≤ component.position.y) ||
          decide (position.y ≥ component.position.y + componentSize))
      skip || !overlap)

/-- `findAvailablePosition(placedComponents)`: scan grid-aligned candidates in
row-major order (y outer from 0 to `CANVAS_HEIGHT - 80`, x inner from 0 to
`CANVAS_WIDTH - 80`, both stepping by `GRID_SIZE`) and return the first valid
one, or `none` when the canvas is full. -/
def findAvailablePosition (placedComponents : List PlacedComponent) : Option Position :=
  (List.range (GRID_ROWS - 1)).findSome? (fun row =>
    (List.range (GRID_COLS - 1)).findSome? (fun col =>
      let position : Position := ⟨(col : ℚ) * GRID_SIZE, (row : ℚ) * GRID_SIZE⟩
      if isValidPlacement position placedComponents none then some position
      else none))

/- ===================== Session History (src/kiro-focus/src/utils/sessionHistory.js) ===================== -/

def MS_PER_DAY : ℕ := 86400000

/-- Convert days since the Unix epoch to a Gregorian civil date
`(getFullYear, getMonth, getDate)` with `getMonth` zero-based as in
JavaScript; the host's local timezone is modelled as a fixed UTC offset. -/
def civilFromDays (z : ℕ) : ℕ × ℕ × ℕ :=
  let zShifted := z + 719468
  let era := zShifted / 146097
  let doe := zShifted % 146097
  let yoe := (doe - doe / 1460 + doe / 36524 - doe / 146096) / 365
  let y := yoe + era * 400
  let doy := doe - (365 * yoe + yoe / 4 - yoe / 100)
  let mp := (5 * doy + 2) / 153
  let d := doy - (153 * mp + 2) / 5 + 1
  let m := if mp < 10 then mp + 3 else mp - 9
  (if m ≤ 2 then y + 1 else y, m - 1, d)

/-- The date key built by `calculateStreak`:
`` `${date.getFullYear()}-${date.getMonth()}-${date.getDate()}` ``. -/
def jsDateStr (ms : ℕ) : String :=
  let c := civilFromDays (ms / MS_PER_DAY)
  toString c.1 ++ "-" ++ toString c.2.1 ++ "-" ++ toString c.2.2

/-- Lexicographic comparison of character lists by code point, as JavaScript
compares strings. -/
def charListLt : List Char → List Char → Bool
  | _, [] => false
  | [], _ :: _ => true
  | a :: as, b :: bs =>
    if a.toNat < b.toNat then true
    else if b.toNat < a.toNat then false
    else charListLt as bs

/-- JavaScript string comparison used by the default `Array.prototype.sort`. -/
def jsStrLt (a b : String) : Bool := charListLt a.toList b.toList

/-- Insert a string into an ascending list under `jsStrLt`. -/
def insertSorted (s : String) : List String → List String
  | [] => [s]
  | t :: ts => if jsStrLt s t then s :: t :: ts else t :: insertSorted s ts

/-- Ascending sort under `jsStrLt`, modelling `Array.prototype.sort()` on an
array of distinct strings. -/
def sortStrings : List String → List String
  | [] => []
  | s :: ss => insertSorted s (sortStrings ss)

/-- `Set` insertion: append unless already present (JavaScript `Set` keeps
insertion order). -/
def insertUnique (l : List String) (s : String) : List String :=
  if l.contains s then l else l ++ [s]

/-- Backward day-by-day walk of `calculateStreak`: starting at index `i`,
count how many consecutive dates `base − i·day, base − (i+1)·day, …` have a
completed session, stopping at the first gap or when the fuel (365-day cap)
runs out. -/
def streakLoop (sessionDates : List String) (base : ℕ) (i : ℕ) : ℕ → ℕ
  | 0 => 0
  | remaining + 1 =>
    if sessionDates.contains (jsDateStr (base - i * MS_PER_DAY)) then
      1 + streakLoop sessionDates base (i + 1) remaining
    else 0

/-- `calculateStreak(sessions)` with the implicit `Date.now()` made explicit:
collect the distinct local date keys of completed sessions, sort the keys as
strings and reverse, require the first key to be today's or yesterday's key,
then count consecutive preceding days (365-day cap). -/
def calculateStreak (now : ℕ) (sessions : List Session) : ℕ :=
  if sessions.isEmpty then 0
  else
    let completedSessions := sessions.filter (fun s => s.completed)
    if completedSessions.isEmpty then 0
    else
      let sessionDates := completedSessions.foldl
        (fun acc s => insertUnique acc (jsDateStr s.startTime)) []
      let sortedDates := (sortStrings sessionDates).reverse
      let todayStr := jsDateStr now
      let yesterdayStr := jsDateStr (now - MS_PER_DAY)
      match sortedDates with
      | [] => 0
      | top :: _ =>
        if top != todayStr && top != yesterdayStr then 0
        else
          let base := if top == yesterdayStr then now - MS_PER_DAY else now
          1 + streakLoop sessionDates base 1 364

/- ===================== State Snapshot (src/nimbus/src/utils/cloudState.js) ===================== -/

/-- A directed connection between two placed-component instance ids.  The
source object's `from`/`to`/`type` fields are spelled `fromId`/`toId`/
`connType` here. -/
structure Connection where
  fromId : String
  toId : String
  connType : String
  deriving Repr, DecidableEq

/-- Long-lived player state fields consulted by the snapshot layer. -/
structure UserProgress where
  credits : ℤ
  currentStreak : ℤ
  lastSessionDate : Option String
  ownedComponents : List String
  sessionHistory : List Session
  sessionsCompleted : ℕ
  totalSessionTime : ℤ
  deriving Repr, DecidableEq

/-- Canvas state fields consulted by the snapshot layer. -/
structure Architecture where
  placedComponents : List PlacedComponent
  connections : List Connection
  deriving Repr, DecidableEq

/-- The application state seen by `buildCloudState`/`applyCloudState`. -/
structure AppState where
  userProgress : UserProgress
  architecture : Architecture
  deriving Repr, DecidableEq

def SESSION_HISTORY_LIMIT : ℕ := 100

/-- `Array.prototype.slice(-n)`: the last `min n (length l)` elements. -/
def lastN (n : ℕ) (l : List Session) : List Session :=
  l.drop (l.length - n)

/-- The persisted snapshot shape produced by `buildCloudState`. -/
structure CloudState where
  credits : ℤ
  currentStreak : ℤ
  lastSessionDate : Option String
  ownedComponents : List String
  placedComponents : List PlacedComponent
  connections : List Connection
  sessionHistory : List Session
  deriving Repr, DecidableEq

/-- `buildCloudState(state)`: extract the persistable fields, truncating the
session history to the most recent `SESSION_HISTORY_LIMIT` entries. -/
def buildCloudState (state : AppState) : CloudState :=
  { credits := state.userProgress.credits
    currentStreak := state.userProgress.currentStreak
    lastSessionDate := state.userProgress.lastSessionDate
    ownedComponents := state.userProgress.ownedComponents
    placedComponents := state.architecture.placedComponents
    connections := state.architecture.connections
    sessionHistory := lastN SESSION_HISTORY_LIMIT state.userProgress.sessionHistory }

/-- `applyCloudState(cloudState, actions)`: the import payload handed to
`actions.importState`, with `sessionsCompleted`/`totalSessionTime` re-derived
from the session history (completed count and duration sum).  In the typed
embedding every field of `CloudState` is present, so the `?? default`
normalizations of the source are the identity. -/
def applyCloudState (cloudState : CloudState) : AppState :=
  { userProgress :=
    { credits := cloudState.credits
      currentStreak := cloudState.currentStreak
      lastSessionDate := cloudState.lastSessionDate
      ownedComponents := cloudState.ownedComponents
      sessionHistory := cloudState.sessionHistory
      sessionsCompleted := (cloudState.sessionHistory.filter (fun s => s.completed)).length
      totalSessionTime := cloudState.sessionHistory.foldl (fun sum s => sum + s.duration) 0 }
    architecture :=
    { placedComponents := cloudState.placedComponents
      connections := cloudState.connections } }


/- ===================== Theorems ===================== -/

theorem lastN_idem (n : ℕ) (l : List Session) : lastN n (lastN n l) = lastN n l := by
  unfold lastN
  rw [List.length_drop, List.drop_drop]
  congr 1
  omega

/-- C1: for an active, unpaused timer state, `tickTimer` compares the naive
one-second decrement of `timeRemaining` against the wall-clock expected
remaining time `totalDuration − (now − startTime − totalPausedTime)/1000`;
when they differ by more than 2 seconds the new `timeRemaining` is the floor
of the expected remaining clamped to ≥ 0, otherwise the decrement clamped to
≥ 0.  In particular, for startTime `T`, totalDuration 1500, totalPausedTime 0,
timeRemaining 1499 and now = T + 1700000 ms, the tick returns
`timeRemaining = 0`. -/
theorem tickTimer_drift_correction (state : TimerState) (now : ℤ)
    (hActive : state.isActive = true) (hPaused : state.isPaused = false) :
    (tickTimer now state =
      (if |state.totalDuration - ((now - state.startTime - state.totalPausedTime : ℤ) : ℚ) / 1000
            - (state.timeRemaining - 1)| > 2 then
        { state with timeRemaining := max 0 ((⌊state.totalDuration - ((now - state.startTime - state.totalPausedTime : ℤ) : ℚ) / 1000⌋ : ℤ) : ℚ) }
      else
        { state with timeRemaining := max 0 (state.timeRemaining - 1) })) ∧
    (∀ T : ℤ,
      (tickTimer (T + 1700000)
        { isActive := true, isPaused := false, timeRemaining := 1499
          totalDuration := 1500, startTime := T, pauseCount := 0
          pausedAt := none, totalPausedTime := 0 }).timeRemaining = 0) := by
  constructor
  · simp [tickTimer, hActive, hPaused]
  · intro T
    have h : (T + 1700000 - T - 0 : ℤ) = 1700000 := by ring
    simp only [tickTimer]
    norm_num

/-- C1 witness: the drift-correction theorem instantiated at the concrete
timer state of the specification's scenario. -/
theorem tickTimer_drift_correction_witness :
    ({ isActive := true, isPaused := false, timeRemaining := 1499
       totalDuration := 1500, startTime := 0, pauseCount := 0
       pausedAt := none, totalPausedTime := 0 } : TimerState).isActive = true ∧
    ({ isActive := true, isPaused := false, timeRemaining := 1499
       totalDuration := 1500, startTime := 0, pauseCount := 0
       pausedAt := none, totalPausedTime := 0 } : TimerState).isPaused = false ∧
    (tickTimer (0 + 1700000)
      { isActive := true, isPaused := false, timeRemaining := 1499
        totalDuration := 1500, startTime := 0, pauseCount := 0
        pausedAt := none, totalPausedTime := 0 }).timeRemaining = 0 :=
  ⟨rfl, rfl,
    (tickTimer_drift_correction
      { isActive := true, isPaused := false, timeRemaining := 1499
        totalDuration := 1500, startTime := 0, pauseCount := 0
        pausedAt := none, totalPausedTime := 0 } 1700000 rfl rfl).2 0⟩

/-- C7 counterexample: starting a 1500-second timer and pausing twice without
resuming leaves `pauseCount` at 1, not 2 — the second `pauseTimer` call is a
no-op on an already-paused state. -/
theorem pauseTimer_twice_count_ne_two :
    (pauseTimer 2000 (pauseTimer 1000 (startTimer 0 1500))).pauseCount ≠ 2 := by
  decide

/-- C7 (amended): for an active, unpaused timer state, the first pause raises
`pauseCount` by exactly 1 and leaves `timeRemaining` unchanged, and a second
pause without an intervening resume is a no-op — the state (hence
`pauseCount` and `timeRemaining`) is unchanged by the second call. -/
theorem pauseTimer_twice_spec (state : TimerState) (n1 n2 : ℤ)
    (hActive : state.isActive = true) (hPaused : state.isPaused = false) :
    pauseTimer n2 (pauseTimer n1 state) = pauseTimer n1 state ∧
    (pauseTimer n1 state).pauseCount = state.pauseCount + 1 ∧
    (pauseTimer n1 state).timeRemaining = state.timeRemaining := by
  simp [pauseTimer, hActive, hPaused]

/-- C7 witness: the pause-twice theorem instantiated at a freshly started
1500-second timer. -/
theorem pauseTimer_twice_spec_witness :
    (startTimer 0 1500).isActive = true ∧
    (startTimer 0 1500).isPaused = false ∧
    (pauseTimer 2000 (pauseTimer 1000 (startTimer 0 1500)) =
        pauseTimer 1000 (startTimer 0 1500) ∧
      (pauseTimer 1000 (startTimer 0 1500)).pauseCount =
        (startTimer 0 1500).pauseCount + 1 ∧
      (pauseTimer 1000 (startTimer 0 1500)).timeRemaining =
        (startTimer 0 1500).timeRemaining) :=
  ⟨rfl, rfl, pauseTimer_twice_spec (startTimer 0 1500) 1000 2000 rfl rfl⟩

/-- C5: a component of the observability category is never a valid connection
source, whatever the destination category; and an edge-category source may
always connect to a compute-category destination. -/
theorem isValidConnection_matrix_spec :
    (∀ c : ComponentCategory,
      isValidConnection ⟨ComponentCategory.observability⟩ ⟨c⟩ = false) ∧
    isValidConnection ⟨ComponentCategory.edge⟩ ⟨ComponentCategory.compute⟩ = true := by
  refine ⟨?_, rfl⟩
  intro c
  cases c <;> rfl

theorem calculateBaseCredits_nonneg (d : ℤ) : 0 ≤ calculateBaseCredits d := by
  unfold calculateBaseCredits
  split_ifs with h
  · exact le_rfl
  · have hd : (0 : ℚ) ≤ (d : ℚ) / 900 := by
      apply div_nonneg _ (by norm_num)
      exact_mod_cast (not_le.mp h).le
    have := Int.floor_nonneg.mpr hd
    omega

theorem calculateCompletionBonus_nonneg (b : ℤ) (p : ℕ) (hb : 0 ≤ b) :
    0 ≤ calculateCompletionBonus b p := by
  unfold calculateCompletionBonus
  split_ifs
  · apply Int.floor_nonneg.mpr
    apply mul_nonneg
    · exact_mod_cast hb
    · norm_num
  · exact le_rfl

theorem calculateStreakBonus_nonneg (b streak : ℤ) (hb : 0 ≤ b) :
    0 ≤ calculateStreakBonus b streak := by
  unfold calculateStreakBonus
  split_ifs with h
  · exact le_rfl
  · apply Int.floor_nonneg.mpr
    apply mul_nonneg
    · exact_mod_cast hb
    · apply le_min
      · apply mul_nonneg _ (by norm_num)
        exact_mod_cast (not_le.mp h).le
      · norm_num

theorem calculateLongSessionBonus_nonneg (b d : ℤ) (hb : 0 ≤ b) :
    0 ≤ calculateLongSessionBonus b d := by
  unfold calculateLongSessionBonus
  split_ifs
  · apply Int.floor_nonneg.mpr
    apply mul_nonneg
    · exact_mod_cast hb
    · norm_num
  · exact le_rfl

theorem calculateBaseCredits_ge_ten (d : ℤ) (hd : 900 ≤ d) :
    10 ≤ calculateBaseCredits d := by
  unfold calculateBaseCredits
  split_ifs with h
  · omega
  · have h1 : (1 : ℤ) ≤ ⌊(d : ℚ) / 900⌋ := by
      apply Int.le_floor.mpr
      rw [le_div_iff₀ (by norm_num : (0 : ℚ) < 900)]
      push_cast
      have : (900 : ℚ) ≤ (d : ℚ) := by exact_mod_cast hd
      linarith
    omega

/-- C2 counterexample: for a session of duration 100 s the abandoned-session
total (0 credits) is equal to the completed-session total on the same
duration (also 0 credits), so the abandoned total does not differ from the
completed formula for every elapsed value. -/
theorem abandoned_total_meets_completed_total :
    (calculateTotalCredits ⟨"s1", 0, 0, 100, false, 0, 0⟩ 0).total =
      (calculateTotalCredits ⟨"s1", 0, 0, 100, true, 0, 0⟩ 0).total := by
  norm_num [calculateTotalCredits, calculatePartialCredits, calculateBaseCredits,
    calculateCompletionBonus, calculateStreakBonus, calculateLongSessionBonus]

/-- C2 (amended): an abandoned session's credit breakdown has all bonus
components zero and total exactly `⌊baseCredits(elapsed) · 0.5⌋`; and
whenever the elapsed time is at least 900 s — so that the base is positive —
that total is strictly below (hence never equal to) the completed-session
total on the same duration, for every pause count and streak.  Below 900 s
both formulas yield 0, so equality does occur there. -/
theorem calculateTotalCredits_abandoned_spec (s : Session) (streak : ℤ)
    (hAb : s.completed = false) :
    (calculateTotalCredits s streak =
      { base := 0, completion := 0, streak := 0, longSession := 0
        partialCredits := calculatePartialCredits s.duration
        total := calculatePartialCredits s.duration } ∧
      calculatePartialCredits s.duration =
        ⌊(calculateBaseCredits s.duration : ℚ) * 0.5⌋) ∧
    (∀ (t : Session) (streak2 : ℤ), t.completed = true → t.duration = s.duration →
      900 ≤ s.duration →
      (calculateTotalCredits s streak).total < (calculateTotalCredits t streak2).total) := by
  refine ⟨⟨by simp [calculateTotalCredits, hAb], ?_⟩, ?_⟩
  · unfold calculatePartialCredits
    split_ifs with h
    · have hb : calculateBaseCredits s.duration = 0 := by
        unfold calculateBaseCredits
        simp [h]
      rw [hb]
      norm_num
    · rfl
  · intro t streak2 hc hdur hd900
    have hd0 : ¬s.duration ≤ 0 := by omega
    have hb10 : 10 ≤ calculateBaseCredits s.duration := calculateBaseCredits_ge_ten _ hd900
    have hb0 : 0 ≤ calculateBaseCredits s.duration := calculateBaseCredits_nonneg _
    have hTotAb : (calculateTotalCredits s streak).total =
        ⌊(calculateBaseCredits s.duration : ℚ) * 0.5⌋ := by
      simp [calculateTotalCredits, hAb, calculatePartialCredits, hd0]
    have hTotCo : (calculateTotalCredits t streak2).total =
        calculateBaseCredits s.duration +
          calculateCompletionBonus (calculateBaseCredits s.duration) t.pauseCount +
          calculateStreakBonus (calculateBaseCredits s.duration) streak2 +
          calculateLongSessionBonus (calculateBaseCredits s.duration) t.duration := by
      simp [calculateTotalCredits, hc, hdur]
    have hHalf : ⌊(calculateBaseCredits s.duration : ℚ) * 0.5⌋ <
        calculateBaseCredits s.duration := by
      have h1 : ((⌊(calculateBaseCredits s.duration : ℚ) * 0.5⌋ : ℤ) : ℚ) ≤
          (calculateBaseCredits s.duration : ℚ) * 0.5 := Int.floor_le _
      have h2 : (calculateBaseCredits s.duration : ℚ) * 0.5 <
          (calculateBaseCredits s.duration : ℚ) := by
        have : (10 : ℚ) ≤ (calculateBaseCredits s.duration : ℚ) := by exact_mod_cast hb10
        nlinarith
      exact_mod_cast lt_of_le_of_lt h1 h2
    have hB1 := calculateCompletionBonus_nonneg (calculateBaseCredits s.duration) t.pauseCount hb0
    have hB2 := calculateStreakBonus_nonneg (calculateBaseCredits s.duration) streak2 hb0
    have hB3 := calculateLongSessionBonus_nonneg (calculateBaseCredits s.duration) t.duration hb0
    rw [hTotAb, hTotCo]
    omega

/-- C2 witness: the abandoned-session theorem instantiated at an abandoned
1000-second session with streak 0, checked against a completed session of the
same duration. -/
theorem calculateTotalCredits_abandoned_spec_witness :
    (⟨"s1", 0, 0, 1000, false, 0, 0⟩ : Session).completed = false ∧
    (⟨"s2", 0, 0, 1000, true, 0, 0⟩ : Session).completed = true ∧
    (⟨"s2", 0, 0, 1000, true, 0, 0⟩ : Session).duration =
      (⟨"s1", 0, 0, 1000, false, 0, 0⟩ : Session).duration ∧
    (900 : ℤ) ≤ (⟨"s1", 0, 0, 1000, false, 0, 0⟩ : Session).duration ∧
    (calculateTotalCredits ⟨"s1", 0, 0, 1000, false, 0, 0⟩ 0).total <
      (calculateTotalCredits ⟨"s2", 0, 0, 1000, true, 0, 0⟩ 3).total :=
  ⟨rfl, rfl, rfl, by norm_num,
    (calculateTotalCredits_abandoned_spec ⟨"s1", 0, 0, 1000, false, 0, 0⟩ 0 rfl).2
      ⟨"s2", 0, 0, 1000, true, 0, 0⟩ 3 rfl rfl (by norm_num)⟩

/-- C3 counterexample: the catalog item `rds` has prerequisite `ec2`; with
owned list `["rds"]` — which does not contain `ec2` — and ample credits,
`canPurchase` rejects with `already_owned`, not with the
prerequisites-not-met reason: the already-owned check runs first. -/
theorem canPurchase_owned_masks_prereq :
    (["rds"] : List String).contains "ec2" = false ∧
    (canPurchase ⟨"rds", "RDS Database", 80, some ["ec2"]⟩ 10000 ["rds"]).reason ≠
      "prerequisites_not_met" ∧
    (canPurchase ⟨"rds", "RDS Database", 80, some ["ec2"]⟩ 10000 ["rds"]).reason =
      "already_owned" := by
  refine ⟨rfl, ?_, rfl⟩
  decide

/-- C3 (amended): provided the item is not already owned (or is the
multi-instance item `ec2`), an item with a prerequisite absent from the owned
list is rejected with reason `prerequisites_not_met`, listing exactly the
missing prerequisite ids, regardless of the credit balance; and, its
prerequisites met, an item of cost C with credits C − 1 is rejected with
reason `insufficient_credits` and shortage 1.  The checks run in the fixed
order: already-owned, then prerequisites, then affordability. -/
theorem canPurchase_priority_spec (component : ShopComponent) (credits : ℤ)
    (ownedComponents : List String)
    (hOwn : component.id = "ec2" ∨ component.id ∉ ownedComponents) :
    (∀ prereqs, component.prerequisites = some prereqs →
      (∃ p ∈ prereqs, p ∉ ownedComponents) →
      (canPurchase component credits ownedComponents).reason = "prerequisites_not_met" ∧
      (canPurchase component credits ownedComponents).missingPrerequisites =
        some (prereqs.filter (fun p => !ownedComponents.contains p))) ∧
    ((checkPrerequisites component ownedComponents).met = true →
      credits = component.cost - 1 →
      (canPurchase component credits ownedComponents).reason = "insufficient_credits" ∧
      (canPurchase component credits ownedComponents).shortage = some 1) := by
  have hGuardP : ¬(¬component.id = "ec2" ∧ component.id ∈ ownedComponents) := by
    rcases hOwn with h | h
    · intro hc; exact hc.1 h
    · intro hc; exact h hc.2
  constructor
  · intro prereqs hpre hex
    obtain ⟨p, hp, hpc⟩ := hex
    have hpe : prereqs.isEmpty = false := by
      cases prereqs with
      | nil => cases hp
      | cons a l => rfl
    have hnotall : ¬∀ a ∈ prereqs, a ∈ ownedComponents := fun hall => hpc (hall p hp)
    have hmet : (checkPrerequisites component ownedComponents).met = false := by
      simp [checkPrerequisites, hpre, hpe, hnotall]
    have hmissing : (checkPrerequisites component ownedComponents).missing =
        prereqs.filter (fun q => !ownedComponents.contains q) := by
      simp [checkPrerequisites, hpre, hpe, hnotall]
    constructor
    · simp [canPurchase, hGuardP, hmet]
    · simp [canPurchase, hGuardP, hmet, hmissing]
  · intro hmet hcr
    have hlt : credits < component.cost := by omega
    constructor
    · simp [canPurchase, hGuardP, hmet, hlt]
    · simp [canPurchase, hGuardP, hmet, hlt, hcr]

/-- C3 witness: the priority theorem instantiated at the `rds` catalog item
with nothing owned (missing prerequisite branch) and large credits. -/
theorem canPurchase_priority_spec_witness :
    ((⟨"rds", "RDS Database", 80, some ["ec2"]⟩ : ShopComponent).id = "ec2" ∨
      (⟨"rds", "RDS Database", 80, some ["ec2"]⟩ : ShopComponent).id ∉ ([] : List String)) ∧
    ((canPurchase ⟨"rds", "RDS Database", 80, some ["ec2"]⟩ 10000 []).reason =
        "prerequisites_not_met" ∧
      (canPurchase ⟨"rds", "RDS Database", 80, some ["ec2"]⟩ 10000 []).missingPrerequisites =
        some ((["ec2"] : List String).filter (fun p => !([] : List String).contains p))) :=
  ⟨Or.inr (by decide),
    (canPurchase_priority_spec ⟨"rds", "RDS Database", 80, some ["ec2"]⟩ 10000 []
      (Or.inr (by decide))).1 ["ec2"] rfl ⟨"ec2", by decide, by decide⟩⟩

/-- C4: `processPurchase` re-validates via `canPurchase`; on failure it
returns the original credits and owned list unchanged together with the
failure message, and on success it returns `credits − cost`, the owned list
with the item id appended, and the amount spent.  The embedding is purely
functional, so the input credits and owned list are unmutated by
construction. -/
theorem processPurchase_spec (component : ShopComponent) (credits : ℤ)
    (ownedComponents : List String) :
    ((canPurchase component credits ownedComponents).canPurchase = false →
      processPurchase component credits ownedComponents =
        { success := false, newCredits := credits
          newOwnedComponents := ownedComponents
          error := some (canPurchase component credits ownedComponents).message
          creditsSpent := none, componentPurchased := none }) ∧
    ((canPurchase component credits ownedComponents).canPurchase = true →
      processPurchase component credits ownedComponents =
        { success := true, newCredits := credits - component.cost
          newOwnedComponents := ownedComponents ++ [component.id]
          error := none
          creditsSpent := some component.cost
          componentPurchased := some component.id }) := by
  constructor <;> intro h <;> simp [processPurchase, h]

/-- C4 witness: the purchase-processing theorem instantiated on the success
path at the `rds` catalog item with `ec2` owned and 100 credits. -/
theorem processPurchase_spec_witness :
    (canPurchase ⟨"rds", "RDS Database", 80, some ["ec2"]⟩ 100 ["ec2"]).canPurchase = true ∧
    processPurchase ⟨"rds", "RDS Database", 80, some ["ec2"]⟩ 100 ["ec2"] =
      { success := true, newCredits := 100 - 80
        newOwnedComponents := ["ec2"] ++ ["rds"]
        error := none
        creditsSpent := some 80
        componentPurchased := some "rds" } :=
  ⟨by decide,
    (processPurchase_spec ⟨"rds", "RDS Database", 80, some ["ec2"]⟩ 100 ["ec2"]).2 (by decide)⟩

/-- C8: a placement at the exact position of an existing component is never
valid — two components at identical snapped positions can never both stand —
and `findAvailablePosition` on an empty canvas returns the top-left-most
valid grid position (0, 0), the first candidate of its row-major
(top-to-bottom, left-to-right) scan. -/
theorem placement_spec :
    (∀ (p : Position) (placed : List PlacedComponent),
      (∃ c ∈ placed, c.position = p) → isValidPlacement p placed none = false) ∧
    findAvailablePosition [] = some ⟨0, 0⟩ := by
  constructor
  · intro p placed hex
    obtain ⟨c, hc, hcp⟩ := hex
    rw [← Bool.not_eq_true]
    intro hvalid
    simp only [isValidPlacement, Bool.or_eq_true, decide_eq_true_eq] at hvalid
    split_ifs at hvalid
    rw [List.all_eq_true] at hvalid
    have hpred := hvalid c hc
    rw [hcp] at hpred
    simp only [Bool.false_or, Bool.not_not, Bool.or_eq_true, decide_eq_true_eq] at hpred
    have hgz : (0 : ℚ) < GRID_SIZE * 2 := by norm_num [GRID_SIZE]
    rcases hpred with ((h | h) | h) | h <;> linarith
  · have hval : isValidPlacement ⟨0, 0⟩ ([] : List PlacedComponent) none = true := by
      unfold isValidPlacement
      norm_num [CANVAS_WIDTH, CANVAS_HEIGHT, GRID_SIZE]
    unfold findAvailablePosition
    simp [show GRID_ROWS - 1 = 13 + 1 from rfl, show GRID_COLS - 1 = 18 + 1 from rfl,
      List.range_succ_eq_map, List.findSome?_cons, hval]

/-- C8 witness: the placement theorem instantiated at position (0, 0) against
a single component already placed at (0, 0). -/
theorem placement_spec_witness :
    (∃ c ∈ [({ id := "ec2-1", type := "ec2", position := ⟨0, 0⟩, tier := 1 } :
        PlacedComponent)], c.position = (⟨0, 0⟩ : Position)) ∧
    isValidPlacement ⟨0, 0⟩
      [({ id := "ec2-1", type := "ec2", position := ⟨0, 0⟩, tier := 1 } :
        PlacedComponent)] none = false :=
  ⟨⟨{ id := "ec2-1", type := "ec2", position := ⟨0, 0⟩, tier := 1 },
      List.mem_singleton.mpr rfl, rfl⟩,
    placement_spec.1 ⟨0, 0⟩
      [{ id := "ec2-1", type := "ec2", position := ⟨0, 0⟩, tier := 1 }]
      ⟨{ id := "ec2-1", type := "ec2", position := ⟨0, 0⟩, tier := 1 },
        List.mem_singleton.mpr rfl, rfl⟩⟩

/-- C9: applying the snapshot built by `buildCloudState` back through
`applyCloudState` reproduces credits, the owned-component list, the
placed-component list and connections, and exactly the most recent 100
session-history entries, with `sessionsCompleted` and `totalSessionTime`
re-derived from that history (completed count, duration sum) rather than
taken from the payload; and the round trip is idempotent. -/
theorem cloudState_roundtrip_spec (state : AppState) :
    (applyCloudState (buildCloudState state)).userProgress.credits =
      state.userProgress.credits ∧
    (applyCloudState (buildCloudState state)).userProgress.ownedComponents =
      state.userProgress.ownedComponents ∧
    (applyCloudState (buildCloudState state)).architecture.placedComponents =
      state.architecture.placedComponents ∧
    (applyCloudState (buildCloudState state)).architecture.connections =
      state.architecture.connections ∧
    (applyCloudState (buildCloudState state)).userProgress.sessionHistory =
      lastN SESSION_HISTORY_LIMIT state.userProgress.sessionHistory ∧
    (applyCloudState (buildCloudState state)).userProgress.sessionsCompleted =
      ((lastN SESSION_HISTORY_LIMIT state.userProgress.sessionHistory).filter
        (fun s => s.completed)).length ∧
    (applyCloudState (buildCloudState state)).userProgress.totalSessionTime =
      (lastN SESSION_HISTORY_LIMIT state.userProgress.sessionHistory).foldl
        (fun sum s => sum + s.duration) 0 ∧
    applyCloudState (buildCloudState (applyCloudState (buildCloudState state))) =
      applyCloudState (buildCloudState state) := by
  refine ⟨rfl, rfl, rfl, rfl, rfl, rfl, rfl, ?_⟩
  have hLast := lastN_idem SESSION_HISTORY_LIMIT state.userProgress.sessionHistory
  simp [applyCloudState, buildCloudState, hLast]

/-- C10: both coordinates produced by `snapToGrid` are integer multiples of
`GRID_SIZE`, and on positions whose coordinates are integers `snapToGrid` is
idempotent. -/
theorem snapToGrid_spec (p : Position) :
    ((∃ kx : ℤ, (snapToGrid p).x = (kx : ℚ) * GRID_SIZE) ∧
      (∃ ky : ℤ, (snapToGrid p).y = (ky : ℚ) * GRID_SIZE)) ∧
    ((∃ ix : ℤ, p.x = (ix : ℚ)) → (∃ iy : ℤ, p.y = (iy : ℚ)) →
      snapToGrid (snapToGrid p) = snapToGrid p) := by
  have key : ∀ q : ℚ,
      jsRound (((jsRound (q / GRID_SIZE) : ℤ) : ℚ) * GRID_SIZE / GRID_SIZE) =
        jsRound (q / GRID_SIZE) := by
    intro q
    rw [mul_div_cancel_right₀ _ (by norm_num [GRID_SIZE] : (GRID_SIZE : ℚ) ≠ 0)]
    unfold jsRound
    rw [Int.floor_int_add]
    norm_num
  refine ⟨⟨⟨jsRound (p.x / GRID_SIZE), rfl⟩, ⟨jsRound (p.y / GRID_SIZE), rfl⟩⟩, ?_⟩
  intro _ _
  unfold snapToGrid
  simp only [key]

/-- C6: evaluation of `calculateStreak` at the claimed scenario.  With "now"
at noon on 2025-10-10 (epoch day 20371) and two completed sessions, one
started today and one started exactly one calendar day earlier, the computed
streak is 1 — not the 2 the specification requires.  `calculateStreak` picks
the most recent session date by sorting the date-key strings
lexicographically, and the key "2025-9-9" (October 9; `getMonth` is
zero-based) sorts above "2025-9-10" (October 10), so the walk starts from
yesterday and never counts today's session. -/
theorem calculateStreak_day_boundary_bug :
    jsDateStr (20371 * MS_PER_DAY + 43200000) = "2025-9-10" ∧
    jsDateStr (20370 * MS_PER_DAY + 43200000) = "2025-9-9" ∧
    20370 * MS_PER_DAY + 43200000 = 20371 * MS_PER_DAY + 43200000 - MS_PER_DAY ∧
    calculateStreak (20371 * MS_PER_DAY + 43200000)
      [⟨"today", 20371 * MS_PER_DAY + 43200000, 20371 * MS_PER_DAY + 44700000,
          1500, true, 0, 10⟩,
        ⟨"yesterday", 20370 * MS_PER_DAY + 43200000, 20370 * MS_PER_DAY + 44700000,
          1500, true, 0, 10⟩] = 1 := by
  refine ⟨by decide, by decide, by decide, ?_⟩
  decide

/-- C10 witness: the snap theorem's idempotence part instantiated at the
integer-coordinate position (3, 5). -/
theorem snapToGrid_spec_witness :
    ((∃ ix : ℤ, (⟨3, 5⟩ : Position).x = (ix : ℚ)) ∧
      (∃ iy : ℤ, (⟨3, 5⟩ : Position).y = (iy : ℚ))) ∧
    snapToGrid (snapToGrid ⟨3, 5⟩) = snapToGrid ⟨3, 5⟩ :=
  ⟨⟨⟨3, by norm_num⟩, ⟨5, by norm_num⟩⟩,
    (snapToGrid_spec ⟨3, 5⟩).2 ⟨3, by norm_num⟩ ⟨5, by norm_num⟩⟩
